import Mathlib

/-!
Shallow embedding of `index.js` of the strava-box repository.

JavaScript numbers are modelled as `JsNum`: NaN, +Infinity, -Infinity, or a
finite value represented exactly as a rational.  (IEEE-754 rounding of finite
doubles is out of model: arithmetic on finite values is exact.  The sign of
zero is not tracked; the payloads and claims considered here never divide a
nonzero value by a negative zero.)  JSON field values that the program
destructures are modelled as `JVal` (undefined / null / number).
-/

namespace StravaBox

/-- JavaScript number: NaN, +Infinity, -Infinity or a finite (exact) value. -/
inductive JsNum where
  | nan
  | inf
  | ninf
  | fin (q : ℚ)
deriving DecidableEq

/-- Truncation toward zero, as JavaScript's ToInteger / `%` use. -/
def jsTrunc (q : ℚ) : ℤ :=
  if q < 0 then ⌈q⌉ else ⌊q⌋

/-- JavaScript `+` on numbers. -/
def jsAdd : JsNum → JsNum → JsNum
  | .nan, _ => .nan
  | _, .nan => .nan
  | .inf, .ninf => .nan
  | .ninf, .inf => .nan
  | .inf, _ => .inf
  | _, .inf => .inf
  | .ninf, _ => .ninf
  | _, .ninf => .ninf
  | .fin p, .fin q => .fin (p + q)

/-- JavaScript `*` on numbers. -/
def jsMul : JsNum → JsNum → JsNum
  | .nan, _ => .nan
  | _, .nan => .nan
  | .fin p, .fin q => .fin (p * q)
  | .inf, .fin q => if 0 < q then .inf else if q < 0 then .ninf else .nan
  | .fin q, .inf => if 0 < q then .inf else if q < 0 then .ninf else .nan
  | .ninf, .fin q => if 0 < q then .ninf else if q < 0 then .inf else .nan
  | .fin q, .ninf => if 0 < q then .ninf else if q < 0 then .inf else .nan
  | .inf, .inf => .inf
  | .ninf, .ninf => .inf
  | .inf, .ninf => .ninf
  | .ninf, .inf => .ninf

/-- JavaScript `/` on numbers (division of a nonzero value by zero gives the
infinity of the (positive) zero's sign; `0 / 0` is NaN). -/
def jsDiv : JsNum → JsNum → JsNum
  | .nan, _ => .nan
  | _, .nan => .nan
  | .fin p, .fin q =>
      if q = 0 then (if 0 < p then .inf else if p < 0 then .ninf else .nan)
      else .fin (p / q)
  | .fin _, .inf => .fin 0
  | .fin _, .ninf => .fin 0
  | .inf, .fin q => if q < 0 then .ninf else .inf
  | .ninf, .fin q => if q < 0 then .inf else .ninf
  | .inf, _ => .nan
  | .ninf, _ => .nan

/-- JavaScript `Math.floor`. -/
def jsFloor : JsNum → JsNum
  | .nan => .nan
  | .inf => .inf
  | .ninf => .ninf
  | .fin q => .fin (⌊q⌋ : ℤ)

/-- JavaScript `%` (truncated remainder). -/
def jsMod : JsNum → JsNum → JsNum
  | .nan, _ => .nan
  | _, .nan => .nan
  | .inf, _ => .nan
  | .ninf, _ => .nan
  | .fin p, .inf => .fin p
  | .fin p, .ninf => .fin p
  | .fin p, .fin q => if q = 0 then .nan else .fin (p - q * (jsTrunc (p / q) : ℤ))

/-- JavaScript `>=` on numbers (false whenever NaN is involved). -/
def jsGe : JsNum → JsNum → Bool
  | .nan, _ => false
  | _, .nan => false
  | .inf, _ => true
  | _, .inf => false
  | _, .ninf => true
  | .ninf, _ => false
  | .fin p, .fin q => decide (q ≤ p)

/-- JavaScript truthiness of a number (`0` and NaN are falsy). -/
def jsTruthy : JsNum → Bool
  | .nan => false
  | .inf => true
  | .ninf => true
  | .fin q => decide (q ≠ 0)

/-- JavaScript number-to-string coercion.  In this program only values that
have gone through `Math.floor` are stringified, so only integral (or
non-finite) values reach this function; the general shortest-round-trip
formatting of fractional doubles is out of model. -/
def jsNumToString : JsNum → String
  | .nan => "NaN"
  | .inf => "Infinity"
  | .ninf => "-Infinity"
  | .fin q => if q.den = 1 then toString q.num else toString q

/-- A JSON field value as seen by a destructuring read: absent (undefined),
null, or a number. -/
inductive JVal where
  | undef
  | jnull
  | num (q : ℚ)
deriving DecidableEq

/-- JavaScript ToNumber coercion of such a value (`undefined` coerces to NaN,
`null` to `0`). -/
def toNumber : JVal → JsNum
  | .undef => .nan
  | .jnull => .fin 0
  | .num q => .fin q

/-- JavaScript truthiness of such a value. -/
def jvalTruthy : JVal → Bool
  | .undef => false
  | .jnull => false
  | .num q => decide (q ≠ 0)

/-- Model of `s.padStart(n, c)`, assuming one UTF-16 unit per char (true for every
character this program pads). -/
def jsPadStart (s : String) (n : ℕ) (c : Char) : String :=
  String.mk (List.replicate (n - s.length) c) ++ s

/-- Model of `s.padEnd(n, c)` on strings. -/
def jsPadEnd (s : String) (n : ℕ) (c : Char) : String :=
  s ++ String.mk (List.replicate (n - s.length) c)

/-- Tests that `p` is a leading substring of `s` (JavaScript `String.startsWith` on
code units; all strings involved are BMP). -/
def jsStartsWith (s p : String) : Bool :=
  p.data.isPrefixOf s.data

/-- Tests that `p` is a trailing substring of `s` (JavaScript `String.endsWith`). -/
def jsEndsWith (s p : String) : Bool :=
  p.data.isSuffixOf s.data

/-!
### Bar chart (`generateBarChart`, index.js lines 263-277)

The glyph string `"░▏▎▍▌▋▊▉█"` is modelled as a list of its 9 characters;
bars are lists of glyphs (`.join` of the two-element array followed by
`.padEnd` is list concatenation followed by padding).  `"…".repeat(n)` throws
a RangeError for a negative (or -Infinity) count, hence the `Option`.
-/

/-- The glyph alphabet `"░▏▎▍▌▋▊▉█"` of `generateBarChart`. -/
def symsList : List Char := ['░', '▏', '▎', '▍', '▌', '▋', '▊', '▉', '█']

/-- Repetition count accepted by `String.prototype.repeat`: the argument is
truncated to an integer (NaN becomes 0); a negative or +Infinity count throws
a RangeError, modelled as `none`. -/
def jsRepeatCount : JsNum → Option ℕ
  | .nan => some 0
  | .inf => none
  | .ninf => none
  | .fin q => if jsTrunc q < 0 then none else some (jsTrunc q).toNat

/-- Model of `syms.substring(i, i + 1)` on the 9-glyph alphabet: both indices are
truncated (NaN coerces to 0) and clamped to `[0, 9]`, then the slice between
them is taken. -/
def jsSubstringOne (i : JsNum) : List Char :=
  match i with
  | .nan => []
  | .inf => []
  | .ninf => []
  | .fin q =>
      let a := min (max (jsTrunc q) 0) 9
      let b := min (max (jsTrunc (q + 1)) 0) 9
      (symsList.drop (min a b).toNat).take (max a b - min a b).toNat

/-- List padding as done by `.padEnd(size, c)` (no-op when already long
enough). -/
def padEndList (n : ℕ) (c : Char) (l : List Char) : List Char :=
  l ++ List.replicate (n - l.length) c

/-- Function `generateBarChart(percent, size)` (index.js lines 263-277).  `none`
models the RangeError that `"█".repeat(barsFull)` throws for a negative
count. -/
def generateBarChart (percent : JsNum) (size : ℕ) : Option (List Char) :=
  let frac := jsFloor (jsDiv (jsMul (jsMul (.fin size) (.fin 8)) percent) (.fin 100))
  let barsFull := jsFloor (jsDiv frac (.fin 8))
  if jsGe barsFull (.fin size) then
    some (List.replicate size '█')
  else
    match jsRepeatCount barsFull with
    | none => none
    | some n =>
        let semi := jsMod frac (.fin 8)
        some (padEndList size '░' (List.replicate n '█' ++ jsSubstringOne semi))

/-!
### Distance formatting (`formatDistance`, `metersToKm`, `metersToMiles`,
index.js lines 279-288 and 316-324)

`toFixed(2)` is modelled by exact decimal rounding to hundredths (round half
away from zero on the magnitude, per the ECMAScript Number.prototype.toFixed
algorithm); the exponential-notation fallback for magnitudes at or above
10^21 is out of the modelled range.  The configured measurement system
(`UNITS` environment variable) is passed explicitly as `units : Option
String`; the JavaScript `switch` with string cases is an equality chain.
-/

/-- Two-digit decimal rendering of a natural number below 100. -/
def pad2 (n : ℕ) : String :=
  if n < 10 then "0" ++ toString n else toString n

/-- The value reported by `toFixed(2)` in hundredths: round half away from
zero (for nonnegative inputs, half up). -/
def round2 (q : ℚ) : ℤ := ⌊q * 100 + 1 / 2⌋

/-- Decimal string `"<int>.<2 digits>"` for a nonnegative number of
hundredths. -/
def fixedPos (n : ℕ) : String :=
  toString (n / 100) ++ "." ++ pad2 (n % 100)

/-- Model of `x.toFixed(2)`. -/
def toFixed2 : JsNum → String
  | .nan => "NaN"
  | .inf => "Infinity"
  | .ninf => "-Infinity"
  | .fin q => if q < 0 then "-" ++ fixedPos (round2 (-q)).toNat else fixedPos (round2 q).toNat

/-- Function `metersToKm` (index.js lines 321-324): multiply by `0.001`, 2 decimals. -/
def metersToKm (m : JsNum) : String :=
  toFixed2 (jsMul m (.fin (1 / 1000)))

/-- Function `metersToMiles` (index.js lines 316-319): multiply by `0.000621371192`,
2 decimals. -/
def metersToMiles (m : JsNum) : String :=
  toFixed2 (jsMul m (.fin (621371192 / 1000000000000)))

/-- Function `formatDistance` (index.js lines 279-288): `switch (units)` with cases
`"meters"` and `"miles"`, defaulting to kilometres. -/
def formatDistance (units : Option String) (d : JsNum) : String :=
  if units = some "meters" then metersToKm d ++ " km"
  else if units = some "miles" then metersToMiles d ++ " mi"
  else metersToKm d ++ " km"

/-- The conversion factor `formatDistance` applies (for stating claims about
the reported numeric value). -/
def distConv (units : Option String) : ℚ :=
  if units = some "miles" then 621371192 / 1000000000000 else 1 / 1000

/-- The unit text appended by `formatDistance`. -/
def unitSuffix (units : Option String) : String :=
  if units = some "miles" then " mi" else " km"

/-!
### Duration and pace (`formatDuration`, `calculatePace`, index.js lines
293-314)
-/

/-- Function `formatDuration(seconds)` (index.js lines 293-297). -/
def formatDuration (seconds : JsNum) : String :=
  let hours := jsFloor (jsDiv seconds (.fin 3600))
  let minutes := jsFloor (jsDiv (jsMod seconds (.fin 3600)) (.fin 60))
  jsNumToString hours ++ ":" ++ jsPadStart (jsNumToString minutes) 2 '0'

/-- Function `calculatePace(distance, seconds)` (index.js lines 302-314).  The guard
`!distance || !seconds` returns the literal `"0:00/km"`. -/
def calculatePace (units : Option String) (distance seconds : JsNum) : String :=
  if !(jsTruthy distance) || !(jsTruthy seconds) then "0:00/km"
  else
    let distanceInKm :=
      if units = some "miles" then jsDiv distance (.fin (160934 / 100))
      else jsDiv distance (.fin 1000)
    let paceSeconds := jsDiv seconds distanceInKm
    let paceMinutes := jsFloor (jsDiv paceSeconds (.fin 60))
    let paceRemainingSeconds := jsFloor (jsMod paceSeconds (.fin 60))
    let unit := if units = some "miles" then "mi" else "km"
    jsNumToString paceMinutes ++ ":" ++
      jsPadStart (jsNumToString paceRemainingSeconds) 2 '0' ++ "/" ++ unit

/-!
### Stats payload and the per-discipline pipeline (`updateGist`, index.js
lines 126-176)

The stats payload is an object whose values are either `null` or a record of
(possibly absent / null / numeric) `distance`, `moving_time` and
`achievement_count` fields.  `const { distance, moving_time } = data[key]`
throws (and is caught) exactly when `data[key]` is `undefined` (key absent)
or `null`; destructuring from a present record never throws, even when the
fields themselves are absent.
-/

/-- The numeric fields the program reads from one totals object. -/
structure TotalsRec where
  distance : JVal
  moving_time : JVal
  achievement_count : JVal
deriving DecidableEq

/-- A value stored under a stats-payload key: `null`, or a totals object. -/
inductive TotalsVal where
  | vnull
  | obj (r : TotalsRec)
deriving DecidableEq

/-- The stats payload: ordered key/value pairs, as `Object.entries` sees
them. -/
abbrev StatsPayload := List (String × TotalsVal)

/-- Lookup `data[key]`: `none` when the key is absent (JavaScript `undefined`). -/
def jget (data : StatsPayload) (k : String) : Option TotalsVal :=
  (data.find? (fun kv => kv.1 == k)).map (fun kv => kv.2)

/-- Table `keyMappings` (index.js lines 126-136), in `Object.keys` order. -/
def keyMappings : List (String × String) :=
  [("Running", "ytd_run_totals"), ("Swimming", "ytd_swim_totals"),
   ("Cycling", "ytd_ride_totals")]

/-- The pace expression of the first map (index.js line 148):
`distance * 3600 / (moving_time ? moving_time : 1)`. -/
def paceOfRec (r : TotalsRec) : JsNum :=
  jsDiv (jsMul (toNumber r.distance) (.fin 3600))
        (if jvalTruthy r.moving_time then toNumber r.moving_time else .fin 1)

/-- The intermediate record built by the first map (index.js lines 140-158):
name, pace and raw distance on success; zeros from the catch branch. -/
structure RawEntry where
  name : String
  pace : JsNum
  distance : JVal
deriving DecidableEq

/-- One iteration of the first map: destructuring `data[key]` succeeds only
on a totals object; otherwise the catch branch substitutes zeros. -/
def rawEntry (data : StatsPayload) (name key : String) : RawEntry :=
  match jget data key with
  | some (.obj r) => ⟨name, paceOfRec r, r.distance⟩
  | _ => ⟨name, .fin 0, .num 0⟩

/-- The `totalDistance` contribution of one discipline: `totalDistance +=
distance` runs only when the destructuring succeeded. -/
def contrib (v : Option TotalsVal) (t : JsNum) : JsNum :=
  match v with
  | some (.obj r) => jsAdd t (toNumber r.distance)
  | _ => t

/-- Accumulator `totalDistance` across the three disciplines (index.js lines
138-158). -/
def totalDistance (data : StatsPayload) : JsNum :=
  keyMappings.foldl (fun t nk => contrib (jget data nk.2) t) (.fin 0)

/-- The record built by the second map (index.js lines 159-169). -/
structure FmtEntry where
  name : String
  distance : String
  pace : String
  barChart : Option (List Char)
deriving DecidableEq

/-- The second map (index.js lines 159-169): percentage of total distance,
formatted distance, `/h` pace with the 3-character unit suffix stripped by
`substring(0, length - 3)`, and the bar chart. -/
def stage2 (units : Option String) (total : JsNum) (e : RawEntry) : FmtEntry :=
  let percent := jsMul (jsDiv (toNumber e.distance) total) (.fin 100)
  let pacePH := formatDistance units e.pace
  let pace := pacePH.take (pacePH.length - 3) ++ "/h"
  { name := e.name
    distance := formatDistance units (toNumber e.distance)
    pace := pace
    barChart := generateBarChart percent 19 }

/-- The third map (index.js lines 170-176): fixed-width line assembly.
`none` propagates a bar-chart RangeError. -/
def renderLine (e : FmtEntry) : Option String :=
  e.barChart.map (fun bc =>
    jsPadEnd e.name 10 ' ' ++ " " ++ jsPadStart e.distance 13 ' ' ++ " " ++
      String.mk bc ++ " " ++ jsPadStart e.pace 7 ' ')

/-- Function `activityTypeLines` (index.js lines 140-176): the three per-discipline
report lines, `none` when an uncaught exception aborts `updateGist`. -/
def activityTypeLines (units : Option String) (data : StatsPayload) :
    Option (List String) :=
  (keyMappings.map (fun nk =>
    renderLine (stage2 units (totalDistance data) (rawEntry data nk.1 nk.2)))).mapM id

/-- Removing a key from a payload (for stating that a discipline behaves as
if its key were absent). -/
def eraseKey (data : StatsPayload) (k : String) : StatsPayload :=
  data.filter (fun kv => kv.1 != k)

/-!
### 7-day rolling window (index.js lines 195-210)

Timestamps are modelled as integers (milliseconds).  `oneWeekAgo` is built
with `setDate(getDate() - 7)`, i.e. the same time of day seven calendar days
earlier; this equals `now - 7 * 86400000` except across daylight-saving
shifts, which are outside the model (the spec likewise says "now minus 7
days").  Activity numeric fields are taken as well-formed rationals here;
the window claim is about the date comparison.
-/

/-- A recent-activity record as the window loop reads it. -/
structure ActivityRec where
  start_date : ℤ
  distance : ℚ
  moving_time : ℚ
deriving DecidableEq

/-- The comparison `activityDate >= oneWeekAgo` (index.js line 204). -/
def inWeekWindow (now t : ℤ) : Bool :=
  decide (now - 7 * 86400000 ≤ t)

/-- One iteration of the `forEach` accumulating `(weekDistance, weekTime,
weekCount)`. -/
def weekStep (now : ℤ) (acc : ℚ × ℚ × ℕ) (a : ActivityRec) : ℚ × ℚ × ℕ :=
  if inWeekWindow now a.start_date then
    (acc.1 + a.distance, acc.2.1 + a.moving_time, acc.2.2 + 1)
  else acc

/-- The 7-day aggregation (index.js lines 195-210). -/
def weekAgg (now : ℤ) (acts : List ActivityRec) : ℚ × ℚ × ℕ :=
  acts.foldl (weekStep now) (0, 0, 0)

/-!
### Monthly block (index.js lines 217-227)

The loop walks `Object.entries(data)` and accumulates the three fields of
every value whose key starts with `"recent_"` and ends with `"_totals"`.
Reading `value["distance"]` from a `null` value throws an uncaught
TypeError, modelled by `Except`.
-/

/-- The three monthly accumulators. -/
structure MonthTotals where
  distance : JsNum
  moving_time : JsNum
  achievement_count : JsNum
deriving DecidableEq

/-- The key test of index.js line 222. -/
def recentKey (k : String) : Bool :=
  jsStartsWith k "recent_" && jsEndsWith k "_totals"

/-- One iteration of the monthly loop. -/
def monthStep (acc : MonthTotals) (kv : String × TotalsVal) :
    Except Unit MonthTotals :=
  if recentKey kv.1 then
    match kv.2 with
    | .vnull => .error ()
    | .obj r =>
        .ok ⟨jsAdd acc.distance (toNumber r.distance),
             jsAdd acc.moving_time (toNumber r.moving_time),
             jsAdd acc.achievement_count (toNumber r.achievement_count)⟩
  else .ok acc

/-- The monthly aggregation (index.js lines 217-227). -/
def monthAgg (data : StatsPayload) : Except Unit MonthTotals :=
  data.foldlM monthStep ⟨.fin 0, .fin 0, .fin 0⟩

/-- Left sum of JavaScript numbers starting from `0`, for stating what the
monthly loop computes. -/
def sumJs (l : List JsNum) : JsNum :=
  l.foldl jsAdd (.fin 0)

/-- The totals record held by a payload value (zero-information record for
`null`; only used under the hypothesis that matching values are objects). -/
def recOf : TotalsVal → TotalsRec
  | .obj r => r
  | .vnull => ⟨.undef, .undef, .undef⟩

/-!
### Token routine (`getStravaToken`, index.js lines 33-95)

The routine starts from the environment fallbacks, overlays every key found
in the parsed cache file (a read/parse failure is swallowed, leaving the
fallbacks), throws a configuration error when the resulting refresh token is
falsy (absent or empty), and only then performs the refresh call; a response
missing either token is a distinct fatal error, and a successful response is
written back to the cache.  Cache values are strings or absent, as this
program itself writes them.  The external effects are returned as an action
trace.
-/

/-- The two environment-supplied token fallbacks. -/
structure TokenEnv where
  stravaAccessToken : Option String
  stravaRefreshToken : Option String
deriving DecidableEq

/-- The parsed cache file: each present key overlays the fallback. -/
structure CacheFileData where
  stravaAccessToken : Option String
  stravaRefreshToken : Option String
deriving DecidableEq

/-- The refresh-endpoint response fields the routine checks. -/
structure RefreshResponse where
  access_token : Option String
  refresh_token : Option String
deriving DecidableEq

/-- Overlay of cache-file keys onto the environment fallbacks (index.js
lines 35-52): a present key overwrites, an absent one leaves the fallback;
an unreadable cache (`none`) leaves both fallbacks. -/
def overlayCache (env : TokenEnv) (file : Option CacheFileData) : TokenEnv :=
  match file with
  | none => env
  | some c =>
      ⟨match c.stravaAccessToken with
        | some v => some v
        | none => env.stravaAccessToken,
       match c.stravaRefreshToken with
        | some v => some v
        | none => env.stravaRefreshToken⟩

/-- Truthiness of an optional string (`!cache.stravaRefreshToken`): absent
and empty are falsy. -/
def truthyStr : Option String → Bool
  | none => false
  | some s => decide (s ≠ "")

/-- External effects of the token routine. -/
inductive TokenAction where
  | refreshCall
  | cacheWrite
deriving DecidableEq

/-- The configuration-error message (index.js line 56). -/
def noRefreshMsg : String :=
  "No Strava refresh token available. Check your environment variables."

/-- The protocol-error message (index.js line 77; the serialized response
appended there is omitted). -/
def refreshFailedMsg : String :=
  "Failed to refresh Strava tokens"

/-- Routine `getStravaToken` (index.js lines 33-95) as a function of the environment
fallbacks, the (already read) cache file and the refresh response, returning
the outcome together with the external actions performed, in order. -/
def getStravaToken (env : TokenEnv) (file : Option CacheFileData)
    (resp : RefreshResponse) : Except String String × List TokenAction :=
  let cache := overlayCache env file
  if !(truthyStr cache.stravaRefreshToken) then
    (.error noRefreshMsg, [])
  else if !(truthyStr resp.access_token) || !(truthyStr resp.refresh_token) then
    (.error refreshFailedMsg, [.refreshCall])
  else
    (.ok (resp.access_token.getD ""), [.refreshCall, .cacheWrite])

/-!
### One run of the pipeline (`main`, index.js lines 24-28)

`main` awaits `getStravaStats()`, then `getRecentActivities()`, then
`updateGist(...)`.  Both fetchers call `getStravaToken()` (index.js lines
102 and 111) before their own GET.  The trace below is that of a fully
successful run, each awaited external call contributing in program order.
-/

/-- External steps of one run. -/
inductive RunStep where
  | oauthRefresh
  | cacheWrite
  | statsRead
  | activitiesRead
  | gistRead
  | formatPass
  | gistWrite
deriving DecidableEq, BEq

/-- Steps of a successful `getStravaToken()` call: the refresh POST, then
the cache write. -/
def getStravaTokenSteps : List RunStep := [.oauthRefresh, .cacheWrite]

/-- Steps of `getStravaStats()` (index.js lines 101-105). -/
def getStravaStatsSteps : List RunStep := getStravaTokenSteps ++ [.statsRead]

/-- Steps of `getRecentActivities()` (index.js lines 110-114). -/
def getRecentActivitiesSteps : List RunStep :=
  getStravaTokenSteps ++ [.activitiesRead]

/-- Steps of `updateGist(...)` (index.js lines 116-261): gist read,
formatting, gist update. -/
def updateGistSteps : List RunStep := [.gistRead, .formatPass, .gistWrite]

/-- Steps of one successful run of `main()` (index.js lines 24-28). -/
def mainSteps : List RunStep :=
  getStravaStatsSteps ++ getRecentActivitiesSteps ++ updateGistSteps

/-- The distance field is absent, null, or a nonnegative number (used to
state fault-isolation hypotheses about well-formed payloads). -/
def jvalIsNonnegB : JVal → Bool
  | .num q => decide (0 ≤ q)
  | _ => true

/-- A payload value whose distance (when destructurable) is nonnegative. -/
def distOkB : Option TotalsVal → Bool
  | some (.obj r) => jvalIsNonnegB r.distance
  | _ => true

/-- A payload value whose distance (when destructurable) is exactly zero. -/
def zeroDistB : Option TotalsVal → Bool
  | some (.obj r) => r.distance == JVal.num 0
  | _ => true

/-- Payload of the malformed-Swimming counterexample: the swim key holds an
object without numeric fields, the other two disciplines are well-formed. -/
def cexStatsPayload : StatsPayload :=
  [("ytd_run_totals", .obj ⟨.num 5000, .num 1800, .num 0⟩),
   ("ytd_swim_totals", .obj ⟨.undef, .undef, .undef⟩),
   ("ytd_ride_totals", .obj ⟨.num 10000, .num 3600, .num 0⟩)]

/-- A well-formed payload with the swimming key entirely absent. -/
def wfStatsPayload : StatsPayload :=
  [("ytd_run_totals", .obj ⟨.num 5000, .num 1800, .num 0⟩)]

/-- A payload in which every present discipline has zero distance. -/
def zeroStatsPayload : StatsPayload :=
  [("ytd_run_totals", .obj ⟨.num 0, .num 100, .num 0⟩)]

/-!
## Theorems
-/

/-- Claim C1, counterexample: one run does not perform the token-refresh
call exactly once — `getStravaStats` and `getRecentActivities` each invoke
`getStravaToken`, so a successful run performs it twice. -/
theorem main_refresh_not_once :
    mainSteps.count RunStep.oauthRefresh = 2 ∧
    mainSteps.count RunStep.oauthRefresh ≠ 1 := by decide

/-- Claim C1 (amended): one invocation of the pipeline performs exactly two
token refreshes (one inside each of the two read fetchers), two read
requests, one formatting pass and one write request. -/
theorem main_step_counts :
    mainSteps.count RunStep.oauthRefresh = 2 ∧
    mainSteps.count RunStep.statsRead = 1 ∧
    mainSteps.count RunStep.activitiesRead = 1 ∧
    mainSteps.count RunStep.formatPass = 1 ∧
    mainSteps.count RunStep.gistWrite = 1 := by decide

/-- Claim C2, counterexample: with the measurement system configured to
miles, `calculatePace(0, 60)` yields the sentinel `"0:00/km"`, whose unit
suffix is `km`, not `mi` — the sentinel's unit ignores the configuration. -/
theorem calculatePace_sentinel_unit_cex :
    calculatePace (some "miles") (.fin 0) (.fin 60) = "0:00/km" ∧
    jsEndsWith (calculatePace (some "miles") (.fin 0) (.fin 60)) "mi" = false ∧
    jsEndsWith (calculatePace (some "miles") (.fin 0) (.fin 60)) "km" = true := by
  decide

/-- Claim C2 (amended): `calculatePace(0, t)` and `calculatePace(d, 0)` both
yield the zero-pace sentinel, which is always `"0:00/km"` regardless of the
configured measurement system; every non-sentinel pace string carries the
unit suffix selected by the configuration (`mi` when it is miles, `km`
otherwise). -/
theorem calculatePace_sentinel_and_unit (u : Option String) (d t : ℚ) :
    ((d = 0 ∨ t = 0) → calculatePace u (.fin d) (.fin t) = "0:00/km") ∧
    (d ≠ 0 → t ≠ 0 → ∃ p : String,
      calculatePace u (.fin d) (.fin t) =
        p ++ "/" ++ (if u = some "miles" then "mi" else "km")) := by
  constructor
  · rintro (rfl | rfl) <;> simp [calculatePace, jsTruthy]
  · intro hd ht
    have h1 : jsTruthy (.fin d) = true := by simp [jsTruthy, hd]
    have h2 : jsTruthy (.fin t) = true := by simp [jsTruthy, ht]
    simp only [calculatePace, h1, h2, Bool.not_true, Bool.or_self,
      Bool.false_eq_true, if_false]
    exact ⟨_, rfl⟩

/-- Claim C2, witness: at miles configuration, distance 1000 and time 300
the sentinel clause is vacuous and the produced pace string ends in `mi`. -/
theorem calculatePace_sentinel_and_unit_witness :
    (((1000 : ℚ) = 0 ∨ (300 : ℚ) = 0) →
      calculatePace (some "miles") (.fin 1000) (.fin 300) = "0:00/km") ∧
    ((1000 : ℚ) ≠ 0 → (300 : ℚ) ≠ 0 → ∃ p : String,
      calculatePace (some "miles") (.fin 1000) (.fin 300) =
        p ++ "/" ++ (if (some "miles" : Option String) = some "miles"
          then "mi" else "km")) :=
  calculatePace_sentinel_and_unit (some "miles") 1000 300

lemma jsMul_fin (p q : ℚ) : jsMul (.fin p) (.fin q) = .fin (p * q) := rfl

lemma jsFloor_fin (q : ℚ) : jsFloor (.fin q) = .fin ((⌊q⌋ : ℤ) : ℚ) := rfl

lemma jsGe_fin (p q : ℚ) : jsGe (.fin p) (.fin q) = decide (q ≤ p) := rfl

lemma jsDiv_fin (p q : ℚ) (hq : q ≠ 0) :
    jsDiv (.fin p) (.fin q) = .fin (p / q) := by
  simp [jsDiv, hq]

lemma jsMod_fin (p q : ℚ) (hq : q ≠ 0) :
    jsMod (.fin p) (.fin q) = .fin (p - q * (jsTrunc (p / q) : ℤ)) := by
  simp [jsMod, hq]

lemma jsTrunc_intCast (n : ℤ) : jsTrunc (n : ℚ) = n := by
  unfold jsTrunc
  split <;> simp

lemma jsTrunc_of_nonneg (q : ℚ) (h : 0 ≤ q) : jsTrunc q = ⌊q⌋ := by
  unfold jsTrunc
  rw [if_neg (not_lt.mpr h)]

lemma take_one_drop (l : List Char) (n : ℕ) (h : n < l.length) (d : Char) :
    (l.drop n).take 1 = [l.getD n d] := by
  induction l generalizing n with
  | nil => simp at h
  | cons a t ih =>
    cases n with
    | zero => simp
    | succ m => simpa using ih m (by simpa using h)

lemma jsSubstringOne_small (s : ℤ) (h0 : 0 ≤ s) (h8 : s < 8) :
    jsSubstringOne (.fin (s : ℚ)) = [symsList.getD s.toNat '░'] := by
  have hcast : (s : ℚ) + 1 = ((s + 1 : ℤ) : ℚ) := by push_cast; ring
  simp only [jsSubstringOne, hcast, jsTrunc_intCast]
  rw [show min (max s 0) 9 = s from by omega,
      show min (max (s + 1) 0) 9 = s + 1 from by omega,
      show min s (s + 1) = s from by omega,
      show max s (s + 1) = s + 1 from by omega,
      show (s + 1 - s).toNat = 1 from by omega]
  exact take_one_drop _ _ (by simp [symsList]; omega) _

lemma generateBarChart_cases (N : ℕ) (p : ℚ) (hp : 0 ≤ p) :
    ((N : ℤ) ≤ ⌊(⌊(N : ℚ) * 8 * p / 100⌋ : ℚ) / 8⌋ →
      generateBarChart (.fin p) N = some (List.replicate N '█')) ∧
    (⌊(⌊(N : ℚ) * 8 * p / 100⌋ : ℚ) / 8⌋ < (N : ℤ) →
      generateBarChart (.fin p) N =
        some (padEndList N '░'
          (List.replicate (⌊(⌊(N : ℚ) * 8 * p / 100⌋ : ℚ) / 8⌋).toNat '█' ++
           [symsList.getD (⌊(N : ℚ) * 8 * p / 100⌋ -
              8 * ⌊(⌊(N : ℚ) * 8 * p / 100⌋ : ℚ) / 8⌋).toNat '░']))) := by
  have hq0 : (0 : ℚ) ≤ (N : ℚ) * 8 * p / 100 :=
    div_nonneg (mul_nonneg (by positivity) hp) (by norm_num)
  set f : ℤ := ⌊(N : ℚ) * 8 * p / 100⌋ with hfdef
  set full : ℤ := ⌊(f : ℚ) / 8⌋ with hfulldef
  have hf0 : 0 ≤ f := Int.floor_nonneg.mpr hq0
  have hfq0 : (0 : ℚ) ≤ (f : ℚ) / 8 :=
    div_nonneg (by exact_mod_cast hf0) (by norm_num)
  have hfull0 : 0 ≤ full := Int.floor_nonneg.mpr hfq0
  have hflo : (full : ℚ) ≤ (f : ℚ) / 8 := Int.floor_le _
  have hfhi : (f : ℚ) / 8 < (full : ℚ) + 1 := Int.lt_floor_add_one _
  have hsemi0 : 0 ≤ f - 8 * full := by
    have h1 : (8 : ℚ) * (full : ℚ) ≤ (f : ℚ) := by linarith
    have h2 : 8 * full ≤ f := by exact_mod_cast h1
    omega
  have hsemi8 : f - 8 * full < 8 := by
    have h1 : (f : ℚ) < 8 * (full : ℚ) + 8 := by linarith
    have h2 : f < 8 * full + 8 := by exact_mod_cast h1
    omega
  have hchart : generateBarChart (.fin p) N =
      if decide ((N : ℚ) ≤ (full : ℚ)) = true then some (List.replicate N '█')
      else some (padEndList N '░' (List.replicate full.toNat '█' ++
        [symsList.getD (f - 8 * full).toNat '░'])) := by
    simp only [generateBarChart, jsMul_fin]
    rw [jsDiv_fin _ _ (by norm_num : (100 : ℚ) ≠ 0), jsFloor_fin, ← hfdef,
        jsDiv_fin _ _ (by norm_num : (8 : ℚ) ≠ 0), jsFloor_fin, ← hfulldef,
        jsGe_fin]
    rw [show jsRepeatCount (.fin ((full : ℤ) : ℚ)) = some full.toNat from by
      simp only [jsRepeatCount, jsTrunc_intCast]
      rw [if_neg (not_lt.mpr hfull0)]]
    rw [jsMod_fin _ _ (by norm_num : (8 : ℚ) ≠ 0),
        jsTrunc_of_nonneg _ hfq0, ← hfulldef,
        show (f : ℚ) - 8 * ((full : ℤ) : ℚ) = ((f - 8 * full : ℤ) : ℚ) from by
          push_cast; ring,
        jsSubstringOne_small _ hsemi0 hsemi8]
  constructor
  · intro h
    rw [hchart, if_pos]
    simp only [decide_eq_true_eq]
    exact_mod_cast h
  · intro h
    rw [hchart, if_neg]
    simp only [decide_eq_true_eq, not_le]
    exact_mod_cast h



lemma padEndList_length (n : ℕ) (c : Char) (l : List Char) (h : l.length ≤ n) :
    (padEndList n c l).length = n := by
  simp [padEndList]
  omega

lemma padEnd_single (N : ℕ) (hN : 1 ≤ N) (c : Char) :
    padEndList N c [c] = List.replicate N c := by
  cases N with
  | zero => omega
  | succ m => simp [padEndList, List.replicate_succ]

/-- Claim C3: bar-chart rendering. -/
theorem generateBarChart_spec (N : ℕ) (hN : 1 ≤ N) :
    generateBarChart (.fin 0) N = some (List.replicate N '░') ∧
    generateBarChart (.fin 100) N = some (List.replicate N '█') ∧
    (∀ p : ℚ, 0 ≤ p → p ≤ 100 →
      ∃ l : List Char, generateBarChart (.fin p) N = some l ∧ l.length = N ∧
        (⌊(⌊(N : ℚ) * 8 * p / 100⌋ : ℚ) / 8⌋ < (N : ℤ) →
          l = padEndList N '░'
            (List.replicate (⌊(⌊(N : ℚ) * 8 * p / 100⌋ : ℚ) / 8⌋).toNat '█' ++
             [symsList.getD (⌊(N : ℚ) * 8 * p / 100⌋ -
                8 * ⌊(⌊(N : ℚ) * 8 * p / 100⌋ : ℚ) / 8⌋).toNat '░'])) ∧
        ((N : ℤ) ≤ ⌊(⌊(N : ℚ) * 8 * p / 100⌋ : ℚ) / 8⌋ →
          l = List.replicate N '█')) := by
  refine ⟨?_, ?_, ?_⟩
  · have e1 : ⌊(N : ℚ) * 8 * 0 / 100⌋ = (0 : ℤ) := by norm_num
    have h := (generateBarChart_cases N 0 le_rfl).2
    rw [e1] at h
    have e2 : ⌊((0 : ℤ) : ℚ) / 8⌋ = (0 : ℤ) := by norm_num
    rw [e2] at h
    have h' := h (by exact_mod_cast hN)
    rw [h']
    norm_num [symsList]
    exact padEnd_single N hN '░'
  · have e1 : ⌊(N : ℚ) * 8 * 100 / 100⌋ = (8 * N : ℤ) := by
      rw [show (N : ℚ) * 8 * 100 / 100 = ((8 * N : ℤ) : ℚ) from by push_cast; ring]
      exact Int.floor_intCast _
    have h := (generateBarChart_cases N 100 (by norm_num)).1
    rw [e1] at h
    have e2 : ⌊((8 * N : ℤ) : ℚ) / 8⌋ = (N : ℤ) := by
      rw [show ((8 * N : ℤ) : ℚ) / 8 = ((N : ℤ) : ℚ) from by push_cast; ring]
      exact Int.floor_intCast _
    rw [e2] at h
    exact h le_rfl
  · intro p hp0 hp1
    have hq0 : (0 : ℚ) ≤ (N : ℚ) * 8 * p / 100 :=
      div_nonneg (mul_nonneg (by positivity) hp0) (by norm_num)
    have hf0 : 0 ≤ ⌊(N : ℚ) * 8 * p / 100⌋ := Int.floor_nonneg.mpr hq0
    have hfull0 : 0 ≤ ⌊(⌊(N : ℚ) * 8 * p / 100⌋ : ℚ) / 8⌋ :=
      Int.floor_nonneg.mpr (div_nonneg (by exact_mod_cast hf0) (by norm_num))
    rcases le_or_lt (N : ℤ) ⌊(⌊(N : ℚ) * 8 * p / 100⌋ : ℚ) / 8⌋ with hge | hlt
    · refine ⟨List.replicate N '█', (generateBarChart_cases N p hp0).1 hge, ?_, ?_, ?_⟩
      · exact List.length_replicate _ _
      · intro hcon; omega
      · intro _; rfl
    · refine ⟨_, (generateBarChart_cases N p hp0).2 hlt, ?_, ?_, ?_⟩
      · apply padEndList_length
        simp only [List.length_append, List.length_replicate, List.length_cons,
          List.length_nil]
        omega
      · intro _; rfl
      · intro hcon; omega

/-- Claim C3, witness: the endpoint at width 19, and a mid-range percentage
producing a 19-cell bar. -/
theorem generateBarChart_spec_witness :
    generateBarChart (.fin 0) 19 = some (List.replicate 19 '░') ∧
    (∃ l : List Char, generateBarChart (.fin 50) 19 = some l ∧ l.length = 19) := by
  refine ⟨(generateBarChart_spec 19 (by norm_num)).1, ?_⟩
  obtain ⟨l, h1, h2, -, -⟩ :=
    (generateBarChart_spec 19 (by norm_num)).2.2 50 (by norm_num) (by norm_num)
  exact ⟨l, h1, h2⟩

lemma distConv_pos (u : Option String) : 0 < distConv u := by
  unfold distConv
  split <;> norm_num

lemma toFixed2_nonneg (q : ℚ) (h : 0 ≤ q) :
    toFixed2 (.fin q) = fixedPos (round2 q).toNat := by
  simp [toFixed2, not_lt.mpr h]

lemma pad2_length : ∀ b : ℕ, b < 100 → (pad2 b).length = 2 := by decide

lemma formatDistance_fin_nonneg (u : Option String) (d : ℚ) (h : 0 ≤ d) :
    formatDistance u (.fin d) =
      fixedPos (round2 (d * distConv u)).toNat ++ unitSuffix u := by
  by_cases h1 : u = some "meters"
  · have h2 : u ≠ some "miles" := by rw [h1]; simp
    rw [formatDistance, if_pos h1, metersToKm, jsMul_fin,
        toFixed2_nonneg _ (by positivity), distConv, if_neg h2, unitSuffix,
        if_neg h2]
  · by_cases h2 : u = some "miles"
    · rw [formatDistance, if_neg h1, if_pos h2, metersToMiles, jsMul_fin,
          toFixed2_nonneg _ (by positivity), distConv, if_pos h2, unitSuffix,
          if_pos h2]
    · rw [formatDistance, if_neg h1, if_neg h2, metersToKm, jsMul_fin,
          toFixed2_nonneg _ (by positivity), distConv, if_neg h2, unitSuffix,
          if_neg h2]

/-- Claim C4: `formatDistance` is monotone and always reports 2 decimals. -/
theorem formatDistance_monotone_two_decimals (u : Option String) (d1 d2 : ℚ)
    (h0 : 0 ≤ d1) (h12 : d1 ≤ d2) :
    round2 (d1 * distConv u) ≤ round2 (d2 * distConv u) ∧
    (∀ d : ℚ, 0 ≤ d → formatDistance u (.fin d) =
      fixedPos (round2 (d * distConv u)).toNat ++ unitSuffix u) ∧
    (∀ d : ℚ, 0 ≤ d → ∃ a : String, ∃ b : ℕ, b < 100 ∧
      formatDistance u (.fin d) = a ++ "." ++ pad2 b ++ unitSuffix u ∧
      (pad2 b).length = 2) := by
  refine ⟨?_, ?_, ?_⟩
  · apply Int.floor_le_floor
    have := mul_le_mul_of_nonneg_right h12 (le_of_lt (distConv_pos u))
    linarith
  · intro d hd
    exact formatDistance_fin_nonneg u d hd
  · intro d hd
    refine ⟨toString ((round2 (d * distConv u)).toNat / 100),
            (round2 (d * distConv u)).toNat % 100, Nat.mod_lt _ (by norm_num),
            ?_, pad2_length _ (Nat.mod_lt _ (by norm_num))⟩
    rw [formatDistance_fin_nonneg u d hd]
    rfl

/-- Claim C4, witness: with miles configured, distances 1000 and 2000 report
monotone values, and the 1000-metre output carries exactly two decimals. -/
theorem formatDistance_monotone_two_decimals_witness :
    round2 ((1000 : ℚ) * distConv (some "miles")) ≤
      round2 ((2000 : ℚ) * distConv (some "miles")) ∧
    (∃ a : String, ∃ b : ℕ, b < 100 ∧
      formatDistance (some "miles") (.fin 1000) =
        a ++ "." ++ pad2 b ++ unitSuffix (some "miles") ∧
      (pad2 b).length = 2) := by
  refine ⟨(formatDistance_monotone_two_decimals (some "miles") 1000 2000
    (by norm_num) (by norm_num)).1, ?_⟩
  exact (formatDistance_monotone_two_decimals (some "miles") 1000 2000
    (by norm_num) (by norm_num)).2.2 1000 (by norm_num)

lemma weekAgg_from (now : ℤ) (acts : List ActivityRec) (d t : ℚ) (c : ℕ) :
    acts.foldl (weekStep now) (d, t, c) =
      (d + ((acts.filter (fun a => inWeekWindow now a.start_date)).map
          (fun a => a.distance)).sum,
       t + ((acts.filter (fun a => inWeekWindow now a.start_date)).map
          (fun a => a.moving_time)).sum,
       c + (acts.filter (fun a => inWeekWindow now a.start_date)).length) := by
  induction acts generalizing d t c with
  | nil => simp
  | cons a rest ih =>
    by_cases h : inWeekWindow now a.start_date
    · simp only [List.foldl_cons, weekStep, if_pos h, List.filter_cons,
        h, ite_true, List.map_cons, List.sum_cons, List.length_cons]
      rw [ih]
      refine Prod.ext ?_ (Prod.ext ?_ ?_) <;> simp <;> ring
    · simp only [List.foldl_cons, weekStep, if_neg h, List.filter_cons]
      exact ih d t c

/-- Claim C6: the 7-day window sums exactly the activities whose start date
is at or after now minus 7 days; the boundary is inclusive at exactly 7 days
ago and excludes 8 days ago. -/
theorem week_window_spec (now : ℤ) (acts : List ActivityRec) :
    weekAgg now acts =
      (((acts.filter (fun a => inWeekWindow now a.start_date)).map
          (fun a => a.distance)).sum,
       ((acts.filter (fun a => inWeekWindow now a.start_date)).map
          (fun a => a.moving_time)).sum,
       (acts.filter (fun a => inWeekWindow now a.start_date)).length) ∧
    inWeekWindow now (now - 7 * 86400000) = true ∧
    inWeekWindow now (now - 8 * 86400000) = false := by
  refine ⟨?_, ?_, ?_⟩
  · rw [weekAgg, weekAgg_from]
    simp
  · simp [inWeekWindow]
  · simp only [inWeekWindow, decide_eq_false_iff_not, not_le]
    omega



lemma exbind_ok (x : MonthTotals) (f : MonthTotals → Except Unit MonthTotals) :
    (Except.ok x >>= f) = f x := rfl

lemma monthAgg_from (data : StatsPayload) (acc : MonthTotals)
    (h : ∀ kv ∈ data, recentKey kv.1 = true → kv.2 ≠ TotalsVal.vnull) :
    data.foldlM monthStep acc =
      .ok ⟨((data.filter (fun kv => recentKey kv.1)).map
              (fun kv => toNumber (recOf kv.2).distance)).foldl jsAdd acc.distance,
           ((data.filter (fun kv => recentKey kv.1)).map
              (fun kv => toNumber (recOf kv.2).moving_time)).foldl jsAdd
             acc.moving_time,
           ((data.filter (fun kv => recentKey kv.1)).map
              (fun kv => toNumber (recOf kv.2).achievement_count)).foldl jsAdd
             acc.achievement_count⟩ := by
  induction data generalizing acc with
  | nil => rfl
  | cons kv rest ih =>
    have hrest : ∀ kv' ∈ rest, recentKey kv'.1 = true → kv'.2 ≠ TotalsVal.vnull :=
      fun kv' hm hk' => h kv' (List.mem_cons_of_mem _ hm) hk'
    by_cases hk : recentKey kv.1
    · have hnv := h kv (List.mem_cons_self _ _) hk
      cases hv : kv.2 with
      | vnull => exact absurd hv hnv
      | obj r =>
        rw [List.foldlM_cons]
        rw [show monthStep acc kv =
            .ok ⟨jsAdd acc.distance (toNumber r.distance),
                 jsAdd acc.moving_time (toNumber r.moving_time),
                 jsAdd acc.achievement_count (toNumber r.achievement_count)⟩ from by
          rw [monthStep, if_pos hk, hv]]
        rw [exbind_ok, ih _ hrest]
        simp [List.filter_cons, hk, hv, recOf]
    · rw [List.foldlM_cons]
      rw [show monthStep acc kv = .ok acc from by rw [monthStep, if_neg hk]]
      rw [exbind_ok, ih _ hrest]
      simp [List.filter_cons, hk]

/-- Claim C7: the monthly block sums exactly the payload entries whose key
matches `recent_*_totals`, and no key of the form `ytd_…` matches. -/
theorem month_recent_totals_spec (data : StatsPayload)
    (h : ∀ kv ∈ data, recentKey kv.1 = true → kv.2 ≠ TotalsVal.vnull) :
    monthAgg data =
      .ok ⟨sumJs ((data.filter (fun kv => recentKey kv.1)).map
              (fun kv => toNumber (recOf kv.2).distance)),
           sumJs ((data.filter (fun kv => recentKey kv.1)).map
              (fun kv => toNumber (recOf kv.2).moving_time)),
           sumJs ((data.filter (fun kv => recentKey kv.1)).map
              (fun kv => toNumber (recOf kv.2).achievement_count))⟩ ∧
    (∀ s : String, recentKey ("ytd_" ++ s) = false) := by
  constructor
  · rw [monthAgg, monthAgg_from data _ h]
    rfl
  · intro s
    cases s with
    | _ l => rfl

/-- Claim C7, witness: on a payload holding one `recent_run_totals` entry
and one `ytd_run_totals` entry, the monthly loop sums only the former, and
`ytd_run_totals` fails the key test. -/
theorem month_recent_totals_spec_witness :
    monthAgg [("recent_run_totals", .obj ⟨.num 1000, .num 600, .num 2⟩),
              ("ytd_run_totals", .obj ⟨.num 99, .num 9, .num 9⟩)] =
      .ok ⟨sumJs (([("recent_run_totals",
                (.obj ⟨.num 1000, .num 600, .num 2⟩ : TotalsVal)),
              ("ytd_run_totals", .obj ⟨.num 99, .num 9, .num 9⟩)].filter
                (fun kv => recentKey kv.1)).map
              (fun kv => toNumber (recOf kv.2).distance)),
           sumJs (([("recent_run_totals",
                (.obj ⟨.num 1000, .num 600, .num 2⟩ : TotalsVal)),
              ("ytd_run_totals", .obj ⟨.num 99, .num 9, .num 9⟩)].filter
                (fun kv => recentKey kv.1)).map
              (fun kv => toNumber (recOf kv.2).moving_time)),
           sumJs (([("recent_run_totals",
                (.obj ⟨.num 1000, .num 600, .num 2⟩ : TotalsVal)),
              ("ytd_run_totals", .obj ⟨.num 99, .num 9, .num 9⟩)].filter
                (fun kv => recentKey kv.1)).map
              (fun kv => toNumber (recOf kv.2).achievement_count))⟩ ∧
    recentKey ("ytd_" ++ "run_totals") = false := by
  constructor
  · exact (month_recent_totals_spec _ (by decide)).1
  · exact (month_recent_totals_spec
      [("recent_run_totals", .obj ⟨.num 1000, .num 600, .num 2⟩),
       ("ytd_run_totals", .obj ⟨.num 99, .num 9, .num 9⟩)] (by decide)).2
      "run_totals"

/-- Claim C8: the token routine raises the configuration error exactly when
the overlay of cache onto environment fallbacks leaves no non-empty refresh
token, and in that case it performs neither the refresh call nor a cache
write. -/
theorem token_config_error_iff (env : TokenEnv) (file : Option CacheFileData)
    (resp : RefreshResponse) :
    ((getStravaToken env file resp).1 = .error noRefreshMsg ↔
      truthyStr (overlayCache env file).stravaRefreshToken = false) ∧
    (truthyStr (overlayCache env file).stravaRefreshToken = false →
      (getStravaToken env file resp).2 = []) := by
  by_cases h : truthyStr (overlayCache env file).stravaRefreshToken = false
  · refine ⟨⟨fun _ => h, fun _ => ?_⟩, fun _ => ?_⟩
    · simp [getStravaToken, h]
    · simp [getStravaToken, h]
  · have h' : truthyStr (overlayCache env file).stravaRefreshToken = true := by
      revert h
      cases truthyStr (overlayCache env file).stravaRefreshToken <;> simp
    refine ⟨⟨fun hc => ?_, fun hc => absurd h' (by rw [hc]; simp)⟩,
            fun hc => absurd h' (by rw [hc]; simp)⟩
    by_cases hr : (!(truthyStr resp.access_token) ||
        !(truthyStr resp.refresh_token)) = true
    · rw [show (getStravaToken env file resp).1 = .error refreshFailedMsg from by
        simp [getStravaToken, h', hr]] at hc
      simp only [Except.error.injEq] at hc
      exact absurd hc (by decide)
    · rw [show (getStravaToken env file resp).1 =
          .ok (resp.access_token.getD "") from by
        simp [getStravaToken, h', hr]] at hc
      exact Except.noConfusion hc

/-- Claim C8, witness: with no refresh token anywhere (empty environment, no
cache file), the routine errors out and performs no external action. -/
theorem token_config_error_iff_witness :
    ((getStravaToken ⟨none, none⟩ none ⟨some "a", some "r"⟩).1 =
        .error noRefreshMsg ↔
      truthyStr (overlayCache ⟨none, none⟩ none).stravaRefreshToken = false) ∧
    (truthyStr (overlayCache ⟨none, none⟩ none).stravaRefreshToken = false →
      (getStravaToken ⟨none, none⟩ none ⟨some "a", some "r"⟩).2 = []) :=
  token_config_error_iff ⟨none, none⟩ none ⟨some "a", some "r"⟩

/-- Claim C9: for a totals record with numeric distance `d` and natural
moving time `t`, the per-discipline pace expression equals
`d * 3600 / max(t, 1)`; its divisor `max(t, 1)` is positive, so no division
by zero occurs. -/
theorem paceOfRec_formula (d : ℚ) (t : ℕ) (a : JVal) :
    paceOfRec ⟨.num d, .num t, a⟩ = .fin (d * 3600 / max (t : ℚ) 1) ∧
    (0 : ℚ) < max (t : ℚ) 1 := by
  constructor
  · cases t with
    | zero =>
      simp only [paceOfRec, jvalTruthy, toNumber, Nat.cast_zero]
      rw [jsMul_fin]
      norm_num [jsDiv_fin]
    | succ m =>
      have ht : ((m + 1 : ℕ) : ℚ) ≠ 0 := by positivity
      simp only [paceOfRec, jvalTruthy, toNumber]
      rw [if_pos (by simpa using ht), jsMul_fin, jsDiv_fin _ _ ht]
      congr 1
      rw [max_eq_left (by exact_mod_cast Nat.one_le_iff_ne_zero.mpr (Nat.succ_ne_zero m))]
  · positivity


lemma jget_cons (kv : String × TotalsVal) (rest : StatsPayload) (k : String) :
    jget (kv :: rest) k = if kv.1 = k then some kv.2 else jget rest k := by
  by_cases h : kv.1 = k
  · simp [jget, List.find?_cons_of_pos, h]
  · simp [jget, List.find?_cons_of_neg, h]

lemma jget_eraseKey_self (data : StatsPayload) (k : String) :
    jget (eraseKey data k) k = none := by
  induction data with
  | nil => rfl
  | cons kv rest ih =>
    by_cases h : kv.1 = k
    · simpa [eraseKey, List.filter_cons, h] using ih
    · simpa [eraseKey, List.filter_cons, h, jget_cons] using ih

lemma jget_eraseKey_ne (data : StatsPayload) (k k' : String) (h : k' ≠ k) :
    jget (eraseKey data k) k' = jget data k' := by
  induction data with
  | nil => rfl
  | cons kv rest ih =>
    by_cases hk : kv.1 = k
    · have hk' : kv.1 ≠ k' := by rw [hk]; exact fun e => h e.symm
      simp only [eraseKey, List.filter_cons] at ih ⊢
      rw [if_neg (by simp [hk])]
      rw [ih, jget_cons, if_neg hk']
    · simp only [eraseKey, List.filter_cons] at ih ⊢
      rw [if_pos (by simp [hk])]
      rw [jget_cons, jget_cons, ih]

lemma totalDistance_eq (data : StatsPayload) :
    totalDistance data =
      contrib (jget data "ytd_ride_totals")
        (contrib (jget data "ytd_swim_totals")
          (contrib (jget data "ytd_run_totals") (.fin 0))) := rfl

lemma activityTypeLines_eq (u : Option String) (data : StatsPayload) :
    activityTypeLines u data =
      ([renderLine (stage2 u (totalDistance data)
          (rawEntry data "Running" "ytd_run_totals")),
        renderLine (stage2 u (totalDistance data)
          (rawEntry data "Swimming" "ytd_swim_totals")),
        renderLine (stage2 u (totalDistance data)
          (rawEntry data "Cycling" "ytd_ride_totals"))] :
        List (Option String)).mapM id := rfl

lemma mapM_id_three_some (x y z : String) :
    ([some x, some y, some z] : List (Option String)).mapM id =
      some [x, y, z] := rfl

lemma rawEntry_congr (data1 data2 : StatsPayload) (n k : String)
    (h : jget data1 k = jget data2 k) :
    rawEntry data1 n k = rawEntry data2 n k := by
  rw [rawEntry, rawEntry, h]

lemma jsAdd_nan_right (t : JsNum) : jsAdd t .nan = .nan := by
  cases t <;> rfl

lemma jsAdd_fin_fin (a b : ℚ) : jsAdd (.fin a) (.fin b) = .fin (a + b) := rfl

lemma stage2_barChart (u : Option String) (T : JsNum) (e : RawEntry) :
    (stage2 u T e).barChart =
      generateBarChart (jsMul (jsDiv (toNumber e.distance) T) (.fin 100)) 19 :=
  rfl

lemma generateBarChart_nan (N : ℕ) :
    generateBarChart .nan N = some (List.replicate N '░') := rfl


lemma generateBarChart_fin_some (q : ℚ) (hq : 0 ≤ q) (N : ℕ) :
    ∃ l, generateBarChart (.fin q) N = some l ∧ l.length = N := by
  have hq0 : (0 : ℚ) ≤ (N : ℚ) * 8 * q / 100 :=
    div_nonneg (mul_nonneg (by positivity) hq) (by norm_num)
  have hf0 : 0 ≤ ⌊(N : ℚ) * 8 * q / 100⌋ := Int.floor_nonneg.mpr hq0
  have hfull0 : 0 ≤ ⌊(⌊(N : ℚ) * 8 * q / 100⌋ : ℚ) / 8⌋ :=
    Int.floor_nonneg.mpr (div_nonneg (by exact_mod_cast hf0) (by norm_num))
  rcases le_or_lt (N : ℤ) ⌊(⌊(N : ℚ) * 8 * q / 100⌋ : ℚ) / 8⌋ with hge | hlt
  · exact ⟨_, (generateBarChart_cases N q hq).1 hge, List.length_replicate _ _⟩
  · refine ⟨_, (generateBarChart_cases N q hq).2 hlt, ?_⟩
    apply padEndList_length
    simp only [List.length_append, List.length_replicate, List.length_cons,
      List.length_nil]
    omega

lemma generateBarChart_some_of (x : JsNum) (N : ℕ)
    (hx : x = .nan ∨ x = .inf ∨ ∃ q : ℚ, 0 ≤ q ∧ x = .fin q) :
    ∃ l, generateBarChart x N = some l ∧ l.length = N := by
  rcases hx with rfl | rfl | ⟨q, hq, rfl⟩
  · exact ⟨_, generateBarChart_nan N, List.length_replicate _ _⟩
  · rcases Nat.eq_zero_or_pos N with rfl | hN
    · have e0 : jsMul (jsMul (.fin ((0 : ℕ) : ℚ)) (.fin 8)) .inf = .nan := by
        rw [jsMul_fin]
        simp [jsMul]
      refine ⟨List.replicate 0 '░', ?_, rfl⟩
      simp only [generateBarChart, e0]
      rfl
    · have hN8 : (0 : ℚ) < (N : ℚ) * 8 := by positivity
      have e0 : jsMul (jsMul (.fin (N : ℚ)) (.fin 8)) .inf = .inf := by
        rw [jsMul_fin]
        simp [jsMul, hN8]
      refine ⟨List.replicate N '█', ?_, List.length_replicate _ _⟩
      simp only [generateBarChart, e0]
      rfl
  · exact generateBarChart_fin_some q hq N

lemma contrib_shape (v : Option TotalsVal) (hv : distOkB v = true) (t : JsNum)
    (ht : t = .nan ∨ ∃ a : ℚ, 0 ≤ a ∧ t = .fin a) :
    contrib v t = .nan ∨ ∃ a : ℚ, 0 ≤ a ∧ contrib v t = .fin a := by
  match v with
  | none => exact ht
  | some .vnull => exact ht
  | some (.obj r) =>
    simp only [contrib]
    simp only [distOkB] at hv
    cases hr : r.distance with
    | undef =>
      left
      simp [toNumber, jsAdd_nan_right]
    | jnull =>
      rcases ht with rfl | ⟨a, ha, rfl⟩
      · left; rfl
      · right
        exact ⟨a, ha, by simp [toNumber, jsAdd_fin_fin]⟩
    | num q0 =>
      rw [hr] at hv
      simp only [jvalIsNonnegB, decide_eq_true_eq] at hv
      rcases ht with rfl | ⟨a, ha, rfl⟩
      · left; rfl
      · right
        exact ⟨a + q0, by linarith, by simp [toNumber, jsAdd_fin_fin]⟩

lemma totalDistance_shape (data : StatsPayload)
    (h : ∀ nk ∈ keyMappings, distOkB (jget data nk.2) = true) :
    totalDistance data = .nan ∨
      ∃ t : ℚ, 0 ≤ t ∧ totalDistance data = .fin t := by
  have hrun := h ("Running", "ytd_run_totals") (by simp [keyMappings])
  have hswim := h ("Swimming", "ytd_swim_totals") (by simp [keyMappings])
  have hride := h ("Cycling", "ytd_ride_totals") (by simp [keyMappings])
  rw [totalDistance_eq]
  apply contrib_shape _ hride
  apply contrib_shape _ hswim
  apply contrib_shape _ hrun
  exact Or.inr ⟨0, le_refl 0, rfl⟩

lemma rawEntry_distance_shape (data : StatsPayload) (n k : String)
    (h : distOkB (jget data k) = true) :
    toNumber (rawEntry data n k).distance = .nan ∨
      ∃ q : ℚ, 0 ≤ q ∧ toNumber (rawEntry data n k).distance = .fin q := by
  match hv : jget data k with
  | none =>
    rw [rawEntry, hv]
    exact Or.inr ⟨0, le_refl 0, rfl⟩
  | some .vnull =>
    rw [rawEntry, hv]
    exact Or.inr ⟨0, le_refl 0, rfl⟩
  | some (.obj r) =>
    rw [hv] at h
    simp only [distOkB] at h
    have he : rawEntry data n k = ⟨n, paceOfRec r, r.distance⟩ := by
      rw [rawEntry, hv]
    rw [he]
    cases hr : r.distance with
    | undef => exact Or.inl rfl
    | jnull => exact Or.inr ⟨0, le_refl 0, rfl⟩
    | num q0 =>
      rw [hr] at h
      simp only [jvalIsNonnegB, decide_eq_true_eq] at h
      exact Or.inr ⟨q0, h, rfl⟩

lemma jsDiv_nan_left (t : JsNum) : jsDiv .nan t = .nan := by
  cases t <;> rfl

lemma percent_shape (dnum total : JsNum)
    (hd : dnum = .nan ∨ ∃ q : ℚ, 0 ≤ q ∧ dnum = .fin q)
    (ht : total = .nan ∨ ∃ t : ℚ, 0 ≤ t ∧ total = .fin t) :
    jsMul (jsDiv dnum total) (.fin 100) = .nan ∨
    jsMul (jsDiv dnum total) (.fin 100) = .inf ∨
    ∃ r : ℚ, 0 ≤ r ∧ jsMul (jsDiv dnum total) (.fin 100) = .fin r := by
  rcases hd with rfl | ⟨q, hq, rfl⟩
  · left
    rw [jsDiv_nan_left]
    rfl
  · rcases ht with rfl | ⟨t, htn, rfl⟩
    · left; rfl
    · by_cases h0 : t = 0
      · subst h0
        by_cases hq0 : q = 0
        · subst hq0
          left
          simp [jsDiv, jsMul]
        · have hqpos : 0 < q := lt_of_le_of_ne hq (Ne.symm hq0)
          right; left
          rw [show jsDiv (.fin q) (.fin 0) = JsNum.inf from by simp [jsDiv, hqpos]]
          simp [jsMul]
      · right; right
        have htpos : 0 < t := lt_of_le_of_ne htn (Ne.symm h0)
        refine ⟨q / t * 100, by positivity, ?_⟩
        rw [jsDiv_fin _ _ h0, jsMul_fin]


lemma renderLine_some (u : Option String) (T : JsNum) (e : RawEntry)
    (h : ∃ l, generateBarChart (jsMul (jsDiv (toNumber e.distance) T)
      (.fin 100)) 19 = some l) :
    ∃ s, renderLine (stage2 u T e) = some s := by
  obtain ⟨l, hl⟩ := h
  rw [renderLine, stage2_barChart, hl]
  exact ⟨_, rfl⟩

lemma activityTypeLines_some (u : Option String) (data : StatsPayload)
    (h1 : ∃ s, renderLine (stage2 u (totalDistance data)
      (rawEntry data "Running" "ytd_run_totals")) = some s)
    (h2 : ∃ s, renderLine (stage2 u (totalDistance data)
      (rawEntry data "Swimming" "ytd_swim_totals")) = some s)
    (h3 : ∃ s, renderLine (stage2 u (totalDistance data)
      (rawEntry data "Cycling" "ytd_ride_totals")) = some s) :
    ∃ ls, activityTypeLines u data = some ls ∧ ls.length = 3 := by
  obtain ⟨s1, e1⟩ := h1
  obtain ⟨s2, e2⟩ := h2
  obtain ⟨s3, e3⟩ := h3
  rw [activityTypeLines_eq, e1, e2, e3, mapM_id_three_some]
  exact ⟨_, rfl, rfl⟩

lemma lines_exist_of_wf (u : Option String) (data : StatsPayload)
    (hwf : ∀ nk ∈ keyMappings, distOkB (jget data nk.2) = true) :
    ∃ ls, activityTypeLines u data = some ls ∧ ls.length = 3 := by
  have hT := totalDistance_shape data hwf
  refine activityTypeLines_some u data ?_ ?_ ?_
  · refine renderLine_some u (totalDistance data) _ ?_
    obtain ⟨l, hl, -⟩ := generateBarChart_some_of _ 19
      (percent_shape _ _ (rawEntry_distance_shape data "Running" "ytd_run_totals"
        (hwf ("Running", "ytd_run_totals") (by simp [keyMappings]))) hT)
    exact ⟨l, hl⟩
  · refine renderLine_some u (totalDistance data) _ ?_
    obtain ⟨l, hl, -⟩ := generateBarChart_some_of _ 19
      (percent_shape _ _ (rawEntry_distance_shape data "Swimming" "ytd_swim_totals"
        (hwf ("Swimming", "ytd_swim_totals") (by simp [keyMappings]))) hT)
    exact ⟨l, hl⟩
  · refine renderLine_some u (totalDistance data) _ ?_
    obtain ⟨l, hl, -⟩ := generateBarChart_some_of _ 19
      (percent_shape _ _ (rawEntry_distance_shape data "Cycling" "ytd_ride_totals"
        (hwf ("Cycling", "ytd_ride_totals") (by simp [keyMappings]))) hT)
    exact ⟨l, hl⟩

/-- Claim C5 (amended): a discipline whose year-to-date key is missing, or
present with value `null`, is substituted with a zero entry (distance 0,
pace 0); the other disciplines' lines are computed as if that key were
absent, and the formatting completes (three lines, no abort), provided the
destructurable distances are well-formed nonnegative numbers.  (A key that
is present as an object without numeric fields is NOT substituted: see the
counterexample.) -/
theorem swim_missing_fault_isolated (u : Option String) (data : StatsPayload)
    (hswim : jget data "ytd_swim_totals" = none ∨
      jget data "ytd_swim_totals" = some TotalsVal.vnull)
    (hwf : ∀ nk ∈ keyMappings, distOkB (jget data nk.2) = true) :
    rawEntry data "Swimming" "ytd_swim_totals" =
      ⟨"Swimming", .fin 0, .num 0⟩ ∧
    activityTypeLines u data =
      activityTypeLines u (eraseKey data "ytd_swim_totals") ∧
    ∃ ls, activityTypeLines u data = some ls ∧ ls.length = 3 := by
  have hrun : jget (eraseKey data "ytd_swim_totals") "ytd_run_totals" =
      jget data "ytd_run_totals" :=
    jget_eraseKey_ne data "ytd_swim_totals" "ytd_run_totals" (by decide)
  have hride : jget (eraseKey data "ytd_swim_totals") "ytd_ride_totals" =
      jget data "ytd_ride_totals" :=
    jget_eraseKey_ne data "ytd_swim_totals" "ytd_ride_totals" (by decide)
  have hswim' : jget (eraseKey data "ytd_swim_totals") "ytd_swim_totals" =
      none := jget_eraseKey_self data _
  have hzl : rawEntry data "Swimming" "ytd_swim_totals" =
      ⟨"Swimming", .fin 0, .num 0⟩ := by
    rcases hswim with h | h <;> rw [rawEntry, h]
  have hzr : rawEntry (eraseKey data "ytd_swim_totals") "Swimming"
      "ytd_swim_totals" = ⟨"Swimming", .fin 0, .num 0⟩ := by
    rw [rawEntry, hswim']
  have htot : totalDistance (eraseKey data "ytd_swim_totals") =
      totalDistance data := by
    rw [totalDistance_eq, totalDistance_eq, hrun, hride, hswim']
    rcases hswim with h | h <;> (rw [h]; try rfl)
  refine ⟨hzl, ?_, lines_exist_of_wf u data hwf⟩
  rw [activityTypeLines_eq, activityTypeLines_eq, htot,
      rawEntry_congr _ data "Running" "ytd_run_totals" hrun,
      rawEntry_congr _ data "Cycling" "ytd_ride_totals" hride,
      hzl, hzr]


/-- Claim C5, counterexample: a swimming key that is present but malformed
(an object without numeric fields) is NOT substituted with a zero entry —
destructuring succeeds, its undefined fields become NaN, the accumulated
total distance becomes NaN, and Running's bar chart is no longer the one
computed on the swim-free payload (all-empty instead of one third full). -/
theorem swim_malformed_not_isolated :
    rawEntry cexStatsPayload "Swimming" "ytd_swim_totals" ≠
      ⟨"Swimming", .fin 0, .num 0⟩ ∧
    (stage2 none (totalDistance cexStatsPayload)
        (rawEntry cexStatsPayload "Running" "ytd_run_totals")).barChart ≠
      (stage2 none (totalDistance (eraseKey cexStatsPayload "ytd_swim_totals"))
        (rawEntry (eraseKey cexStatsPayload "ytd_swim_totals") "Running"
          "ytd_run_totals")).barChart := by
  constructor
  · decide
  · have hA : (stage2 none (totalDistance cexStatsPayload)
        (rawEntry cexStatsPayload "Running" "ytd_run_totals")).barChart =
        some (List.replicate 19 '░') := by
      rw [stage2_barChart,
          show toNumber (rawEntry cexStatsPayload "Running"
            "ytd_run_totals").distance = .fin 5000 from rfl,
          show totalDistance cexStatsPayload = .nan from rfl,
          show jsDiv (JsNum.fin 5000) .nan = .nan from rfl,
          show jsMul JsNum.nan (.fin 100) = .nan from rfl,
          generateBarChart_nan]
    have hfloor1 : ⌊((19 : ℕ) : ℚ) * 8 * (100 / 3) / 100⌋ = (50 : ℤ) := by
      norm_num
    have hfloor2 : ⌊((50 : ℤ) : ℚ) / 8⌋ = (6 : ℤ) := by norm_num
    have hB : (stage2 none
        (totalDistance (eraseKey cexStatsPayload "ytd_swim_totals"))
        (rawEntry (eraseKey cexStatsPayload "ytd_swim_totals") "Running"
          "ytd_run_totals")).barChart =
        some (padEndList 19 '░' (List.replicate (6 : ℤ).toNat '█' ++
          [symsList.getD ((50 : ℤ) - 8 * 6).toNat '░'])) := by
      rw [stage2_barChart,
          show toNumber (rawEntry (eraseKey cexStatsPayload "ytd_swim_totals")
            "Running" "ytd_run_totals").distance = .fin 5000 from rfl,
          show totalDistance (eraseKey cexStatsPayload "ytd_swim_totals") =
            .fin 15000 from by
            rw [show totalDistance (eraseKey cexStatsPayload
              "ytd_swim_totals") = JsNum.fin (0 + 5000 + 10000) from rfl]
            norm_num,
          jsDiv_fin _ _ (by norm_num), jsMul_fin,
          show (5000 / 15000 * 100 : ℚ) = 100 / 3 from by norm_num]
      have h := (generateBarChart_cases 19 (100 / 3) (by norm_num)).2
      rw [hfloor1, hfloor2] at h
      exact h (by norm_num)
    rw [hA, hB]
    decide


lemma contrib_zeroDist (v : Option TotalsVal) (hv : zeroDistB v = true) :
    contrib v (.fin 0) = .fin 0 := by
  match v with
  | none => rfl
  | some .vnull => rfl
  | some (.obj r) =>
    simp only [zeroDistB, beq_iff_eq] at hv
    simp only [contrib, hv, toNumber, jsAdd_fin_fin]
    norm_num

lemma rawEntry_distance_zero (data : StatsPayload) (n k : String)
    (h : zeroDistB (jget data k) = true) :
    toNumber (rawEntry data n k).distance = .fin 0 := by
  match hv : jget data k with
  | none => rw [rawEntry, hv]; rfl
  | some .vnull => rw [rawEntry, hv]; rfl
  | some (.obj r) =>
    rw [hv] at h
    simp only [zeroDistB, beq_iff_eq] at h
    have he : rawEntry data n k = ⟨n, paceOfRec r, r.distance⟩ := by
      rw [rawEntry, hv]
    rw [he]
    show toNumber r.distance = .fin 0
    rw [h]
    rfl

/-- Claim C10: when every discipline's distance is zero or substituted-zero,
the total distance is zero, every bar chart is a full-width all-empty bar
(the `0 / 0` NaN percentage neither crashes nor shortens it), and the three
report lines are still produced. -/
theorem zero_total_empty_bars (u : Option String) (data : StatsPayload)
    (h : ∀ nk ∈ keyMappings, zeroDistB (jget data nk.2) = true) :
    totalDistance data = .fin 0 ∧
    (∀ nk ∈ keyMappings,
      (stage2 u (totalDistance data) (rawEntry data nk.1 nk.2)).barChart =
        some (List.replicate 19 '░')) ∧
    ∃ ls, activityTypeLines u data = some ls ∧ ls.length = 3 := by
  have hrun := h ("Running", "ytd_run_totals") (by simp [keyMappings])
  have hswim := h ("Swimming", "ytd_swim_totals") (by simp [keyMappings])
  have hride := h ("Cycling", "ytd_ride_totals") (by simp [keyMappings])
  have htot : totalDistance data = .fin 0 := by
    rw [totalDistance_eq, contrib_zeroDist _ hrun, contrib_zeroDist _ hswim,
        contrib_zeroDist _ hride]
  have hbar : ∀ nk ∈ keyMappings,
      (stage2 u (totalDistance data) (rawEntry data nk.1 nk.2)).barChart =
        some (List.replicate 19 '░') := by
    intro nk hm
    rw [stage2_barChart, rawEntry_distance_zero data nk.1 nk.2 (h nk hm), htot,
        show jsDiv (JsNum.fin 0) (JsNum.fin 0) = JsNum.nan from by
          simp [jsDiv],
        show jsMul JsNum.nan (JsNum.fin 100) = JsNum.nan from rfl,
        generateBarChart_nan]
  refine ⟨htot, hbar, ?_⟩
  refine activityTypeLines_some u data ?_ ?_ ?_
  · exact renderLine_some u (totalDistance data) _
      ⟨_, ((stage2_barChart u (totalDistance data) _).symm.trans
        (hbar ("Running", "ytd_run_totals") (by simp [keyMappings])))⟩
  · exact renderLine_some u (totalDistance data) _
      ⟨_, ((stage2_barChart u (totalDistance data) _).symm.trans
        (hbar ("Swimming", "ytd_swim_totals") (by simp [keyMappings])))⟩
  · exact renderLine_some u (totalDistance data) _
      ⟨_, ((stage2_barChart u (totalDistance data) _).symm.trans
        (hbar ("Cycling", "ytd_ride_totals") (by simp [keyMappings])))⟩

/-- Claim C5, witness: on a payload whose swimming key is absent and whose
single running entry is well-formed, the swim entry is zeroed, the report
equals the swim-free report, and all three lines are produced. -/
theorem swim_missing_fault_isolated_witness :
    rawEntry wfStatsPayload "Swimming" "ytd_swim_totals" =
      ⟨"Swimming", .fin 0, .num 0⟩ ∧
    activityTypeLines none wfStatsPayload =
      activityTypeLines none (eraseKey wfStatsPayload "ytd_swim_totals") ∧
    (∃ ls, activityTypeLines none wfStatsPayload = some ls ∧ ls.length = 3) :=
  swim_missing_fault_isolated none wfStatsPayload (Or.inl rfl)
    (by decide)

/-- Claim C10, witness: a payload whose only entry has distance zero. -/
theorem zero_total_empty_bars_witness :
    totalDistance zeroStatsPayload = .fin 0 ∧
    (stage2 none (totalDistance zeroStatsPayload)
      (rawEntry zeroStatsPayload "Running" "ytd_run_totals")).barChart =
        some (List.replicate 19 '░') ∧
    (∃ ls, activityTypeLines none zeroStatsPayload = some ls ∧
      ls.length = 3) :=
  ⟨(zero_total_empty_bars none zeroStatsPayload (by decide)).1,
   (zero_total_empty_bars none zeroStatsPayload (by decide)).2.1
     ("Running", "ytd_run_totals") (by decide),
   (zero_total_empty_bars none zeroStatsPayload (by decide)).2.2⟩

end StravaBox
